/-
Verification of the Kings Properties scraper (scraper.py,
complete_scraper.py, comprehensive_scraper.py, simple_scraper.py) against
its natural-language specification.

The Python sources are shallowly embedded: every DOM interaction a function
performs is a field of an explicit element/page model, pure string
manipulation is translated operation for operation, and Python exceptions
are modelled with explicit `QRes`/`Except` values.
-/
import Mathlib

namespace KingsScraper

/-! ## String utilities: models of the Python string operations used -/

/-- Model of Python `sub in s` (contiguous substring test), on char lists. -/
def charsContain (l sub : List Char) : Bool :=
  match l with
  | [] => sub.isEmpty
  | c :: t => sub.isPrefixOf (c :: t) || charsContain t sub

/-- Model of Python `sub in s`. -/
def strContains (s sub : String) : Bool := charsContain s.data sub.data

/-- Model of Python `s.startswith(p)`. -/
def strStartsWith (s p : String) : Bool := p.data.isPrefixOf s.data

/-- Model of Python `s.upper()`. -/
def upperStr (s : String) : String := ⟨s.data.map Char.toUpper⟩

/-- Model of Python `s.lower()`. -/
def lowerStr (s : String) : String := ⟨s.data.map Char.toLower⟩

/-- Whitespace-trimming on char lists (model of Python `s.strip()`). -/
def trimChars (l : List Char) : List Char :=
  ((l.dropWhile Char.isWhitespace).reverse.dropWhile Char.isWhitespace).reverse

/-- Model of Python `s.strip()`. -/
def trimStr (s : String) : String := ⟨trimChars s.data⟩

/-- Model of Python `s.replace(" ", "_")` (used on detail-table keys). -/
def spacesToUnderscores (s : String) : String :=
  ⟨s.data.map (fun c => if c = ' ' then '_' else c)⟩

/-- Decimal-digit accumulator for the model of Python `int(...)`:
`none` when a non-digit character is met. -/
def natOfCharsAux : List Char → Nat → Option Nat
  | [], acc => some acc
  | c :: t, acc =>
      if c.isDigit then natOfCharsAux t (10 * acc + (c.toNat - 48)) else none

/-- Model of Python `int(s)` on an optionally signed decimal string;
`none` models a raised `ValueError`. -/
def parseIntStr (s : String) : Option Int :=
  match s.data with
  | [] => none
  | c :: t =>
      if c = '-' then
        if t.isEmpty then none
        else (natOfCharsAux t 0).map (fun n => -(n : Int))
      else if c = '+' then
        if t.isEmpty then none
        else (natOfCharsAux t 0).map (fun n => (n : Int))
      else (natOfCharsAux (c :: t) 0).map (fun n => (n : Int))

/-- Model of Python `s.isdigit() and int(s)`: parses nonempty all-digit
strings (used by complete_scraper.py's pagination-button search). -/
def parseNatStr (s : String) : Option Nat :=
  match s.data with
  | [] => none
  | l => natOfCharsAux l 0

/-- Suffix of the list after the first occurrence of `sep`
(empty when `sep` does not occur). -/
def afterFirstL (sep : List Char) : List Char → List Char
  | [] => []
  | c :: t =>
      if sep.isPrefixOf (c :: t) then (c :: t).drop sep.length
      else afterFirstL sep t

/-- Prefix of the list before the first occurrence of `sep`
(the whole list when `sep` does not occur). -/
def beforeFirstL (sep : List Char) : List Char → List Char
  | [] => []
  | c :: t =>
      if sep.isPrefixOf (c :: t) then [] else c :: beforeFirstL sep t

/-- Model of Python `s.split(sep)[1]` for a `sep` that occurs in `s`: the
text strictly between the first occurrence of `sep` and the following
occurrence (or the end of the string). -/
def splitSecond (sep s : String) : String :=
  ⟨beforeFirstL sep.data (afterFirstL sep.data s.data)⟩

/-- A URL is scheme-qualified when it contains the `://` separator. -/
def isSchemeQualified (s : String) : Bool := strContains s "://"

/-! ## Python-dict model: association list, insertion order preserved -/

/-- Model of Python `d[k] = v`: update the first binding of `k` in place,
else append a new binding at the end. -/
def alSet {β : Type} : List (String × β) → String → β → List (String × β)
  | [], k, v => [(k, v)]
  | (k', v') :: t, k, v =>
      if k' = k then (k, v) :: t else (k', v') :: alSet t k v

/-- Model of Python `d.get(k)` / `d[k]`. -/
def alGet {β : Type} : List (String × β) → String → Option β
  | [], _ => none
  | (k', v') :: t, k => if k' = k then some v' else alGet t k

/-- Model of Python `k in d` (key membership). -/
def alHas {β : Type} (d : List (String × β)) (k : String) : Bool :=
  (alGet d k).isSome

/-! ## Data model of a scraped property record -/

/-- JSON-like values stored in a scraped property record. -/
inductive Value where
  | null : Value
  | str : String → Value
  | bool : Bool → Value
  | int : Int → Value
  | strList : List String → Value
  | strDict : List (String × String) → Value
deriving DecidableEq

/-- One scraped property record: the Python dict built by the extractors. -/
abbrev Record := List (String × Value)

/-- The `details` sub-dictionary (string keys and values). -/
abbrev Details := List (String × String)

/-- A possibly-null string attribute stored into a record
(`None` href/src/alt attributes become JSON null, as in the source). -/
def ovalue : Option String → Value
  | some s => .str s
  | none => .null

/-! ## Element model: the Selenium queries the extractors perform -/

/-- Result of one Selenium query against a listing element: `found` a
value, `absent` models a raised `NoSuchElementException`, `err` models any
other raised exception (stale element, detached node, ...). -/
inductive QRes (α : Type) where
  | found : α → QRes α
  | absent : QRes α
  | err : String → QRes α

/-- Shallow embedding of one listing node: the results of every Selenium
query the extractors perform against it.
`anchorQ` is `find_element(By.TAG_NAME, "a")` followed by reading `href`;
`imgQ`/`titleQ`/`linkQ` answer `find_element(By.CSS_SELECTOR, sel)` per
selector; `bannerQ` is the `.list-item-banner` text; `secondaryQ` is the
texts returned by `find_elements(".secondary-information")`; `tableQ` is
the `table.mt-2` rows, each row as its `td` cell texts. -/
structure PropElem where
  anchorQ : QRes (Option String)
  tagName : String
  selfHref : Option String
  imgQ : String → QRes (Option String × Option String)
  bannerQ : QRes String
  titleQ : String → QRes String
  secondaryQ : QRes (List String)
  tableQ : QRes (List (List String))
  linkQ : String → QRes (Option String)

/-- scraper.py lines 328-333 (the attribute-substring selectors are written
here without the inner CSS quotes). -/
def imageSelectors : List String :=
  ["img.image-cover", "img", ".property-image img", ".listing-image img"]

/-- scraper.py lines 369-378. -/
def titleSelectors : List String :=
  ["h5.mb-0", "h5", "h4", "h3", ".title", ".property-title",
   ".listing-title", "[class*=title]"]

/-- scraper.py lines 477-488: container-selector strategies for listing
nodes, tried in order. -/
def propertySelectors : List String :=
  [".grid-item", ".property-item", ".listing-item", ".property-card",
   "div[class*=property]", "div[class*=listing]", "a[href*=property]",
   ".col-md-6", ".property", ".listing"]

/-- complete_scraper.py lines 46-51. -/
def altLinkSelectors : List String :=
  ["a[href*=property]", "a[href*=listing]", "a[href*=detail]", "a"]

/-! ## scraper.py `extract_property_details`, step by step -/

/-- scraper.py lines 306-318: the url from the first `<a>` descendant, else
from the node itself when it is an `<a>`.  Returns the `property_url` local
together with the record. -/
def urlStep (e : PropElem) (d : Record) :
    Except (String × Record) (Option String × Record) :=
  match e.anchorQ with
  | .found h => .ok (h, alSet d "url" (ovalue h))
  | .absent =>
      if e.tagName = "a" then .ok (e.selfHref, alSet d "url" (ovalue e.selfHref))
      else .ok (none, alSet d "url" .null)
  | .err m => .error (m, d)

/-- scraper.py lines 320-325: `property_id` is `url.split("propertyId=")[1]`
when the marker occurs in the url (an empty url is falsy and also yields
null, which coincides with the marker test failing). -/
def propertyIdStep (purl : Option String) (d : Record) : Record :=
  match purl with
  | some u =>
      if strContains u "propertyId=" then
        alSet d "property_id" (.str (splitSecond "propertyId=" u))
      else alSet d "property_id" .null
  | none => alSet d "property_id" .null

/-- scraper.py lines 327-348: first image selector that matches wins;
`NoSuchElementException` moves to the next selector, any other exception
propagates to the outer handler. -/
def imageLoop (e : PropElem) :
    List String → Record → Except (String × Record) Record
  | [], d => .ok (alSet (alSet d "image_url" .null) "image_alt" .null)
  | s :: rest, d =>
      match e.imgQ s with
      | .found sa =>
          .ok (alSet (alSet d "image_url" (ovalue sa.1)) "image_alt" (ovalue sa.2))
      | .absent => imageLoop e rest d
      | .err m => .error (m, d)

/-- scraper.py lines 350-366: the listing-type banner and the lease/sale
flags computed from `listing_type` (the local stays "Unknown" when the
banner is absent). -/
def bannerFlags (lt : String) (d : Record) : Record :=
  let d := alSet d "listing_type" (.str lt)
  let fl := strContains lt "LEASE"
  let fs := strContains lt "SALE"
  let d := alSet d "for_lease" (.bool fl)
  let d := alSet d "for_sale" (.bool fs)
  if strContains lt "BOTH" || (fl && fs) then
    alSet (alSet d "for_lease" (.bool true)) "for_sale" (.bool true)
  else d

/-- scraper.py lines 350-366 (entry): banner query and flag computation. -/
def bannerStep (e : PropElem) (d : Record) : Except (String × Record) Record :=
  match e.bannerQ with
  | .found t => .ok (bannerFlags (upperStr (trimStr t)) d)
  | .absent => .ok (bannerFlags "Unknown" d)
  | .err m => .error (m, d)

/-- scraper.py lines 368-391: first title selector that matches wins. -/
def titleLoop (e : PropElem) :
    List String → Record → Except (String × Record) Record
  | [], d => .ok (alSet d "title" (.str "Unknown"))
  | s :: rest, d =>
      match e.titleQ s with
      | .found t => .ok (alSet d "title" (.str (trimStr t)))
      | .absent => titleLoop e rest d
      | .err m => .error (m, d)

/-- scraper.py lines 393-406: the first secondary-information text is the
location unless it looks like a price/availability fragment. -/
def locationStep (e : PropElem) (d : Record) : Except (String × Record) Record :=
  match e.secondaryQ with
  | .found texts =>
      match texts with
      | [] => .ok (alSet d "location" (.str "Unknown"))
      | t0 :: _ =>
          let lt := trimStr t0
          if (lt != "") && !(strStartsWith lt "$" || strStartsWith lt "Call" ||
              strStartsWith lt "Available") then
            .ok (alSet d "location" (.str lt))
          else .ok (alSet d "location" (.str "Unknown"))
  | .absent => .ok (alSet d "location" (.str "Unknown"))
  | .err m => .error (m, d)

/-- scraper.py lines 414-423: one detail-table row; rows with fewer than two
cells are skipped. -/
def tableRow (det : Details) (row : List String) : Details :=
  match row with
  | c0 :: c1 :: _ =>
      alSet det (spacesToUnderscores (lowerStr (trimStr c0))) (trimStr c1)
  | _ => det

/-- scraper.py lines 408-426: the detail-table pass; a missing table yields
an empty details dict, any other exception propagates. -/
def tableStep (e : PropElem) (d : Record) : Except (String × Record) Details :=
  match e.tableQ with
  | .found rows => .ok (rows.foldl tableRow [])
  | .absent => .ok []
  | .err m => .error (m, d)

/-- scraper.py lines 441-452: the heuristic applied to one secondary-info
fragment.  Note the guard keys: the "sf" branch tests the key "available"
but sets "available_space", and the "spaces" branch tests "#_of_spaces" but
sets "number_of_spaces"; the property-type branch has no guard. -/
def heuristicStep (det : Details) (info : String) : Details :=
  let il := lowerStr info
  if strContains il "sf" && !(alHas det "available") then
    alSet det "available_space" info
  else if strContains il "call agent" && !(alHas det "price") then
    alSet det "price" info
  else if strContains il "spaces" && !(alHas det "#_of_spaces") then
    alSet det "number_of_spaces" info
  else if strContains il "bldg" && !(alHas det "building_size") then
    alSet det "building_size" info
  else if il == "manufacturing" || il == "office" || il == "warehouse" ||
      il == "retail" || il == "industrial" then
    alSet det "property_type" info
  else det

/-- scraper.py lines 440-452: the heuristic pass over all fragments. -/
def heuristicPass (det : Details) (infos : List String) : Details :=
  infos.foldl heuristicStep det

/-- scraper.py lines 428-455: collect the non-placeholder secondary texts
and run the heuristic pass.  `find_elements` returns an empty list rather
than raising, so `absent` behaves like an empty result; any other exception
is swallowed by the `except Exception` at line 454, leaving the record and
the details unchanged. -/
def secondaryStep (e : PropElem) (d : Record) (det : Details) :
    Record × Details :=
  match e.secondaryQ with
  | .found texts =>
      let infos := texts.filterMap (fun t =>
        let tt := trimStr t
        if tt != "" && tt != "-" then some tt else none)
      (alSet d "secondary_info" (.strList infos), heuristicPass det infos)
  | .absent => (alSet d "secondary_info" (.strList []), det)
  | .err _ => (d, det)

/-- The extraction body strictly before the banner step
(scraper.py lines 306-348); an error propagates to the outer handler. -/
def preBanner (e : PropElem) : Except (String × Record) Record :=
  match urlStep e [] with
  | .error p => .error p
  | .ok (purl, d) => imageLoop e imageSelectors (propertyIdStep purl d)

/-- The extraction body strictly after the banner step
(scraper.py lines 368-457); an error propagates to the outer handler. -/
def postBanner (e : PropElem) (d : Record) : Except (String × Record) Record :=
  match titleLoop e titleSelectors d with
  | .error p => .error p
  | .ok d =>
      match locationStep e d with
      | .error p => .error p
      | .ok d =>
          match tableStep e d with
          | .error p => .error p
          | .ok det =>
              let p := secondaryStep e d det
              .ok (alSet p.1 "details" (.strDict p.2))

/-- scraper.py lines 303-457: the try-body of `extract_property_details`;
an error carries the record as populated so far. -/
def extractBody (e : PropElem) : Except (String × Record) Record :=
  match preBanner e with
  | .error p => .error p
  | .ok d =>
      match bannerStep e d with
      | .error p => .error p
      | .ok d => postBanner e d

/-- scraper.py lines 293-463: `extract_property_details`; the outer
`except Exception` records the failure under the "error" key and keeps
every field populated before the failure. -/
def extract_property_details (e : PropElem) : Record :=
  match extractBody e with
  | .ok d => d
  | .error (m, d) => alSet d "error" (.str m)

/-- The record carried by either channel of an extraction-step result. -/
def recOf : Except (String × Record) Record → Record
  | .ok d => d
  | .error (_, d) => d

/-! ## Pagination (scraper.py) -/

/-- Pagination state visible on a rendered page: the text of the active
`.js-paginate-btn` (none when the element is missing) and the texts of all
`.js-paginate-btn` elements, in document order. -/
structure PageView where
  activeBtnText : Option String
  paginateBtnTexts : List String

/-- scraper.py lines 531-537: `get_current_page_number`; both a missing
active button and an `int(...)` failure default to 1. -/
def get_current_page_number (v : PageView) : Int :=
  match v.activeBtnText with
  | some t =>
      match parseIntStr (trimStr t) with
      | some n => n
      | none => 1
  | none => 1

/-- scraper.py lines 636-645: the first `.js-paginate-btn` whose stripped
text parses to `target` (labels that fail to parse are skipped). -/
def findNextButton (btns : List String) (target : Int) : Option String :=
  btns.find? (fun b => parseIntStr (trimStr b) == some target)

/-- scraper.py lines 623-669: `navigate_to_next_page`.  `pre` is the view
before the click; when the next-page button is found it is clicked and the
page number is re-read from `post`, the view after the click and load wait;
success requires the re-read number to be strictly greater. -/
def navigate_to_next_page (pre post : PageView) : Bool :=
  let current := get_current_page_number pre
  match findNextButton pre.paginateBtnTexts (current + 1) with
  | some _ => decide (current < get_current_page_number post)
  | none => false

/-! ## Selector resolution and per-page extraction (scraper.py) -/

/-- scraper.py lines 490-503: try the selector strategies in order and
return the first non-empty node list, the matching selector, and — as an
explicit evaluation trace — the selectors on which `find_elements` was
actually invoked, in order. -/
def resolveSelectors {α : Type} (dom : String → List α) :
    List String → List α × Option String × List String
  | [] => ([], none, [])
  | s :: rest =>
      let found := dom s
      if found.isEmpty then
        let r := resolveSelectors dom rest
        (r.1, r.2.1, s :: r.2.2)
      else (found, some s, [s])

/-- scraper.py lines 465-529: `get_current_page_properties`.  `dom` gives
the listing elements each CSS selector matches on the current page and
`clock` the wall-clock reading at each record append; every extracted
record is stamped with `page_number` and `scraped_at` before it is
appended. -/
def get_current_page_properties (view : PageView)
    (dom : String → List PropElem) (clock : Nat → String) : List Record :=
  let resolved := resolveSelectors dom propertySelectors
  (resolved.1.enum).map (fun p =>
    let d := extract_property_details p.2
    let d := alSet d "page_number" (.int (get_current_page_number view))
    alSet d "scraped_at" (.str (clock p.1)))

/-! ## Frames and the scraper.py orchestrator -/

/-- An iframe element of the host page (its `src` attribute). -/
structure Frame where
  src : Option String

/-- complete_scraper.py lines 236-243 (same search in comprehensive and
simple): the first iframe whose `src` contains both the buildout host and
the "inventory" marker. -/
def findBuildoutIframe (frames : List Frame) : Option Frame :=
  frames.find? (fun f =>
    match f.src with
    | some s => strContains s "buildout.com" && strContains s "inventory"
    | none => false)

/-- The site as seen by scraper.py's run: the iframes of the host page
(never consulted by scraper.py), the DOM and pagination view of the page
visited at each loop index, the `total_pages` value parsed by
`get_total_results_info`, and the wall clock. -/
structure BrowserEnv where
  frames : List Frame
  pageDom : Nat → String → List PropElem
  pageView : Nat → PageView
  totalPagesInfo : Nat
  clock : Nat → String

/-- scraper.py lines 706-725: the page loop.  `fuel` is the remaining page
budget (`max_pages_to_scrape - page_count`), `k` the index of the page
being visited; returns the accumulated records and the number of pages
visited.  The loop stops early only when `navigate_to_next_page` reports
no further pages or a stalled click. -/
def scrapeLoop (env : BrowserEnv) : Nat → Nat → List Record × Nat
  | 0, _ => ([], 0)
  | fuel + 1, k =>
      let props := get_current_page_properties (env.pageView k) (env.pageDom k) env.clock
      if navigate_to_next_page (env.pageView k) (env.pageView (k + 1)) then
        let r := scrapeLoop env fuel (k + 1)
        (props ++ r.1, r.2 + 1)
      else (props, 1)

/-- scraper.py line 704: `max_pages or pagination_info["total_pages"]`
(Python `or` falls back on the total when `max_pages` is `None` or `0`). -/
def maxPagesToScrape (maxPages : Option Nat) (totalPages : Nat) : Nat :=
  match maxPages with
  | some m => if m = 0 then totalPages else m
  | none => totalPages

/-- scraper.py lines 671-736: `scrape_all_pages` — records and the number
of pages visited.  Note there is no frame entry and no fixed safety bound:
the only page ceiling is `max_pages or total_pages`. -/
def scrape_all_pages (env : BrowserEnv) (maxPages : Option Nat) :
    List Record × Nat :=
  scrapeLoop env (maxPagesToScrape maxPages env.totalPagesInfo) 0

/-! ## complete_scraper.py models -/

/-- complete_scraper.py line 27: the fallback `item_url`. -/
def fallbackItemUrl : String := "https://example.com/item/unknown"

/-- complete_scraper.py lines 45-63: the alternative link-selector loop run
from the `except` branch; only `http`-prefixed hrefs are accepted. -/
def completeAltLinkLoop (e : PropElem) : List String → String → String
  | [], u => u
  | s :: rest, u =>
      match e.linkQ s with
      | .found (some a) =>
          if strStartsWith a "http" then a else completeAltLinkLoop e rest u
      | .found none => completeAltLinkLoop e rest u
      | .absent => completeAltLinkLoop e rest u
      | .err _ => completeAltLinkLoop e rest u

/-- complete_scraper.py lines 36-41: the "element itself is a link"
fallback, still accepting only `http`-prefixed hrefs. -/
def completeSelfLink (e : PropElem) : String :=
  if e.tagName = "a" then
    match e.selfHref with
    | some b => if strStartsWith b "http" then b else fallbackItemUrl
    | none => fallbackItemUrl
  else fallbackItemUrl

/-- complete_scraper.py lines 27-63: `item_url` extraction; only absolute
(`http`-prefixed) URLs are accepted, otherwise the fallback URL is kept. -/
def complete_item_url (e : PropElem) : String :=
  match e.anchorQ with
  | .found (some a) => if strStartsWith a "http" then a else completeSelfLink e
  | .found none => completeSelfLink e
  | .absent => completeAltLinkLoop e altLinkSelectors fallbackItemUrl
  | .err _ => completeAltLinkLoop e altLinkSelectors fallbackItemUrl

/-- comprehensive_scraper.py lines 107-133: the lease/sale flags
`(for_lease, for_sale, listing_type)`.  The `except` at line 126 catches
any exception and defaults `for_lease = True`; lines 131-132 re-apply the
lease default when neither keyword was found. -/
def comprehensive_type_flags (bannerQ : QRes String) : Bool × Bool × String :=
  let s :=
    match bannerQ with
    | .found t =>
        let bt := upperStr (trimStr t)
        (strContains bt "LEASE", strContains bt "SALE", bt)
    | .absent => (true, false, "")
    | .err _ => (true, false, "")
  if !s.1 && !s.2.1 then (true, s.2.1, s.2.2) else s

/-- complete_scraper.py lines 23-148: `extract_property_data` seen at its
boundary.  `body` is the try-block over one listing node; an exception that
escapes the inner handlers is caught at line 146 and turns the whole
result into `None`. -/
def extract_property_data (body : Except String Record) : Option Record :=
  match body with
  | .ok r => some r
  | .error _ => none

/-- complete_scraper.py lines 284-288: the per-node loop of the page
scrape; a `None` extraction result is simply not appended, while the loop
continues with the remaining sibling nodes. -/
def completePageItems (bodies : List (Except String Record)) : List Record :=
  bodies.filterMap extract_property_data

/-- complete_scraper.py lines 174-190: `get_next_page_button` — the first
pagination button whose stripped text is all digits and equals
`current_page + 1`. -/
def get_next_page_button (btns : List String) (cur : Nat) : Option String :=
  btns.find? (fun b => parseNatStr (trimStr b) == some (cur + 1))

/-- Environment of complete_scraper.py's `main`: whether the driver
initializes, the iframes of the host page, the pagination buttons found on
each page, whether the click on the next-page control succeeds, and an
optional session-level exception raised while scraping. -/
structure CompleteEnv where
  initOk : Bool
  frames : List Frame
  pageBtns : Nat → List String
  clickOk : Nat → Bool
  bodyErr : Option String

/-- complete_scraper.py lines 255-319: the page loop with its fixed
`max_pages = 10` safety limit; returns the number of pages visited
(assuming listing items are found on every visited page). -/
def completeLoop (env : CompleteEnv) : Nat → Nat → Nat
  | 0, _ => 0
  | fuel + 1, cur =>
      if cur ≤ 10 then
        match get_next_page_button (env.pageBtns cur) cur with
        | some _ =>
            if env.clickOk cur then 1 + completeLoop env fuel (cur + 1) else 1
        | none => 1
      else 0

/-- complete_scraper.py lines 255-319: pages visited by one run of the
loop, starting at `current_page = 1`. -/
def completePagesVisited (env : CompleteEnv) : Nat := completeLoop env 11 1

/-! ## Session accounting (try/finally structure of the entry points) -/

/-- complete_scraper.py lines 209-352: the try-body of `main` with its
internal `except Exception: return 1`; the boolean is whether a driver is
open when the body finishes.  A missing buildout iframe returns exit code
1 at line 247 — the sole hard precondition of the run. -/
def completeBody (env : CompleteEnv) (driverOpen : Bool) : Int × Bool :=
  if !env.initOk then (1, driverOpen)
  else
    let driverOpen := true
    if (findBuildoutIframe env.frames).isNone then (1, driverOpen)
    else
      match env.bodyErr with
      | some _ => (1, driverOpen)
      | none => (0, driverOpen)

/-- complete_scraper.py lines 206-359: `main` with its
`finally: if driver: driver.quit()`. -/
def completeMainRun (env : CompleteEnv) : Int × Bool :=
  let r := completeBody env false
  (r.1, if r.2 then false else r.2)

/-- scraper.py run-level environment: whether `setup_driver` succeeds and
whether the scraping body raises a session-level exception. -/
structure ScraperRunEnv where
  initOk : Bool
  bodyErr : Option String

/-- Exit of scraper.py's `scrape_all_pages` at the session level. -/
inductive RunExit where
  | completed : RunExit
  | raised : String → RunExit
deriving DecidableEq

/-- scraper.py lines 682-732: the try-body of `scrape_all_pages`; a failed
`setup_driver` re-raises before any driver is open, a body exception
re-raises with the driver open. -/
def scraperSessionBody (env : ScraperRunEnv) (driverOpen : Bool) :
    RunExit × Bool :=
  if !env.initOk then (.raised "webdriver init failed", driverOpen)
  else
    let driverOpen := true
    match env.bodyErr with
    | some m => (.raised m, driverOpen)
    | none => (.completed, driverOpen)

/-- scraper.py lines 88-92: `close_driver` (`if self.driver: ... quit()`). -/
def close_driver (driverOpen : Bool) : Bool :=
  if driverOpen then false else driverOpen

/-- scraper.py lines 682-736: `scrape_all_pages` with its
`finally: self.close_driver()`. -/
def scraperSessionRun (env : ScraperRunEnv) : RunExit × Bool :=
  let r := scraperSessionBody env false
  (r.1, close_driver r.2)

/-- simple_scraper.py lines 30-185: `main` with its
`finally: if driver: driver.quit()` (no hard frame precondition there). -/
def simpleMainRun (env : CompleteEnv) : Int × Bool :=
  let r :=
    if !env.initOk then ((1 : Int), false)
    else
      match env.bodyErr with
      | some _ => ((1 : Int), true)
      | none => ((0 : Int), true)
  (r.1, if r.2 then false else r.2)

/-! ## Decimal page labels (used to build concrete pagination DOMs) -/

/-- The decimal digit character of `n < 10`. -/
def digitChar (n : Nat) : Char := Char.ofNat (48 + n)

/-- The decimal digits of `n`, least significant first (empty for 0). -/
def natToCharsRev (n : Nat) : List Char :=
  if h : n = 0 then []
  else digitChar (n % 10) :: natToCharsRev (n / 10)
termination_by n
decreasing_by exact Nat.div_lt_self (Nat.pos_of_ne_zero h) (by norm_num)

/-- The decimal rendering of a positive page number. -/
def natLabel (n : Nat) : String := ⟨(natToCharsRev n).reverse⟩

/-- A pagination view whose active button is labelled `k + 1` and whose
only other button is labelled `k + 2`: every click can advance. -/
def numberedView (k : Nat) : PageView :=
  { activeBtnText := some (natLabel (k + 1))
    paginateBtnTexts := [natLabel (k + 2)] }

/-! ## Concrete listing elements and environments -/

/-- A listing node on which every query finds nothing of interest. -/
def elemNoBanner : PropElem :=
  { anchorQ := .absent
    tagName := "div"
    selfHref := none
    imgQ := fun _ => .absent
    bannerQ := .absent
    titleQ := fun _ => .absent
    secondaryQ := .found []
    tableQ := .absent
    linkQ := fun _ => .absent }

/-- A listing node with a FOR LEASE banner. -/
def elemLease : PropElem := { elemNoBanner with bannerQ := .found "FOR LEASE" }

/-- A listing node whose detail table sets `available_space` to
"5,000 SF" and whose secondary info contains an "SF" fragment. -/
def elemTableSF : PropElem :=
  { elemNoBanner with
    tableQ := .found [["Available Space", "5,000 SF"]]
    secondaryQ := .found ["10,000 SF"] }

/-- A listing node whose first anchor carries a relative (non
scheme-qualified) href containing a propertyId marker. -/
def elemRelativeAnchor : PropElem :=
  { elemNoBanner with
    anchorQ := .found (some "/home-5/properties?propertyId=1417234-sale") }

/-- A listing node whose anchor query raises a non-`NoSuchElement`
exception (e.g. a stale element). -/
def elemErr : PropElem :=
  { elemNoBanner with anchorQ := .err "stale element reference" }

/-- A browser environment whose totals parsing misreports 9999 pages and
whose pagination control always lets the next click advance. -/
def env9999 : BrowserEnv :=
  { frames := []
    pageDom := fun _ _ => []
    pageView := numberedView
    totalPagesInfo := 9999
    clock := fun _ => "2026-10-12T00:00:00" }

/-- A browser environment with no iframes at all and a single page holding
a single listing node. -/
def envNoFrames : BrowserEnv :=
  { frames := []
    pageDom := fun _ _ => [elemNoBanner]
    pageView := fun _ => { activeBtnText := none, paginateBtnTexts := [] }
    totalPagesInfo := 1
    clock := fun _ => "2026-10-12T00:00:00" }

/-- A pagination view on page 1 with no further pagination buttons. -/
def trivialView : PageView :=
  { activeBtnText := some "1", paginateBtnTexts := [] }

/-- A successfully extracted sibling record. -/
def sampleOkRecord : Record := [("name", Value.str "605 Athena Drive")]

/-- A selector environment in which only "B" matches nodes. -/
def domB : String → List Nat := fun t => if t = "B" then [7, 8] else []

/-- A complete_scraper.py environment whose host page carries no buildout
iframe. -/
def envCompleteNoFrame : CompleteEnv :=
  { initOk := true
    frames := []
    pageBtns := fun _ => []
    clickOk := fun _ => true
    bodyErr := none }

/-- The pagination buttons of a stuck page: the view keeps rendering the
same links 2-11 no matter what is clicked. -/
def stuckBtns : List String :=
  ["2", "3", "4", "5", "6", "7", "8", "9", "10", "11"]

/-- A complete_scraper.py environment whose page never advances: every
iteration of the loop sees the identical stuck pagination view. -/
def envStuckPager : CompleteEnv :=
  { initOk := true
    frames := []
    pageBtns := fun _ => stuckBtns
    clickOk := fun _ => true
    bodyErr := none }

/-! ## Basic dictionary lemmas -/

theorem alGet_alSet_self {β : Type} (d : List (String × β)) (k : String) (v : β) :
    alGet (alSet d k v) k = some v := by
  induction d with
  | nil => simp [alSet, alGet]
  | cons hd t ih =>
      obtain ⟨k0, v0⟩ := hd
      by_cases hk : k0 = k
      · subst hk
        simp [alSet, alGet]
      · simp [alSet, alGet, hk, ih]

theorem alGet_alSet_ne {β : Type} (d : List (String × β)) (k k' : String)
    (v : β) (h : k' ≠ k) : alGet (alSet d k' v) k = alGet d k := by
  induction d with
  | nil => simp [alSet, alGet, h]
  | cons hd t ih =>
      obtain ⟨k0, v0⟩ := hd
      by_cases hk : k0 = k'
      · subst hk
        simp [alSet, alGet, h]
      · by_cases hk0 : k0 = k
        · subst hk0
          simp [alSet, alGet, hk]
        · simp [alSet, alGet, hk, hk0, ih]

/-- Combined rewrite: an `alSet` either hits or misses the looked-up key. -/
theorem alGet_alSet {β : Type} (d : List (String × β)) (k k' : String) (v : β) :
    alGet (alSet d k' v) k = if k' = k then some v else alGet d k := by
  by_cases h : k' = k
  · subst h
    simp [alGet_alSet_self]
  · simp [h, alGet_alSet_ne d k k' v h]

/-! ## Frame lemmas: each extraction step only touches its own keys -/

theorem imageLoop_frame (e : PropElem) (sels : List String) (d : Record)
    (k : String) (h1 : k ≠ "image_url") (h2 : k ≠ "image_alt") :
    alGet (recOf (imageLoop e sels d)) k = alGet d k := by
  induction sels generalizing d with
  | nil => simp [imageLoop, recOf, alGet_alSet, Ne.symm h1, Ne.symm h2]
  | cons s rest ih =>
      cases hq : e.imgQ s with
      | found sa => simp [imageLoop, hq, recOf, alGet_alSet, Ne.symm h1, Ne.symm h2]
      | absent => simp [imageLoop, hq, ih]
      | err m => simp [imageLoop, hq, recOf]

theorem titleLoop_frame (e : PropElem) (sels : List String) (d : Record)
    (k : String) (h1 : k ≠ "title") :
    alGet (recOf (titleLoop e sels d)) k = alGet d k := by
  induction sels generalizing d with
  | nil => simp [titleLoop, recOf, alGet_alSet, Ne.symm h1]
  | cons s rest ih =>
      cases hq : e.titleQ s with
      | found t => simp [titleLoop, hq, recOf, alGet_alSet, Ne.symm h1]
      | absent => simp [titleLoop, hq, ih]
      | err m => simp [titleLoop, hq, recOf]

theorem bannerFlags_frame (lt : String) (d : Record) (k : String)
    (h1 : k ≠ "listing_type") (h2 : k ≠ "for_lease") (h3 : k ≠ "for_sale") :
    alGet (bannerFlags lt d) k = alGet d k := by
  simp only [bannerFlags]
  split <;> simp [alGet_alSet, Ne.symm h1, Ne.symm h2, Ne.symm h3]

theorem bannerStep_frame (e : PropElem) (d : Record) (k : String)
    (h1 : k ≠ "listing_type") (h2 : k ≠ "for_lease") (h3 : k ≠ "for_sale") :
    alGet (recOf (bannerStep e d)) k = alGet d k := by
  cases hq : e.bannerQ with
  | found t => simp [bannerStep, hq, recOf, bannerFlags_frame _ _ _ h1 h2 h3]
  | absent => simp [bannerStep, hq, recOf, bannerFlags_frame _ _ _ h1 h2 h3]
  | err m => simp [bannerStep, hq, recOf]

theorem locationStep_frame (e : PropElem) (d : Record) (k : String)
    (h1 : k ≠ "location") :
    alGet (recOf (locationStep e d)) k = alGet d k := by
  cases hq : e.secondaryQ with
  | found texts =>
      cases texts with
      | nil => simp [locationStep, hq, recOf, alGet_alSet, Ne.symm h1]
      | cons t0 rest =>
          simp only [locationStep, hq]
          split <;> simp [recOf, alGet_alSet, Ne.symm h1]
  | absent => simp [locationStep, hq, recOf, alGet_alSet, Ne.symm h1]
  | err m => simp [locationStep, hq, recOf]

theorem secondaryStep_frame (e : PropElem) (d : Record) (det : Details)
    (k : String) (h1 : k ≠ "secondary_info") :
    alGet (secondaryStep e d det).1 k = alGet d k := by
  cases hq : e.secondaryQ with
  | found texts => simp [secondaryStep, hq, alGet_alSet, Ne.symm h1]
  | absent => simp [secondaryStep, hq, alGet_alSet, Ne.symm h1]
  | err m => simp [secondaryStep, hq]

/-- Everything after the banner step leaves the banner keys (and any key
other than title/location/secondary_info/details) untouched, whether it
finishes or raises. -/
theorem postBanner_frame (e : PropElem) (d : Record) (k : String)
    (h1 : k ≠ "title") (h2 : k ≠ "location") (h3 : k ≠ "secondary_info")
    (h4 : k ≠ "details") :
    alGet (recOf (postBanner e d)) k = alGet d k := by
  unfold postBanner
  cases htl : titleLoop e titleSelectors d with
  | error p =>
      have := titleLoop_frame e titleSelectors d k h1
      rw [htl] at this
      simpa [recOf] using this
  | ok d1 =>
      have hd1 : alGet d1 k = alGet d k := by
        have := titleLoop_frame e titleSelectors d k h1
        rwa [htl] at this
      cases hloc : locationStep e d1 with
      | error p =>
          have hh := locationStep_frame e d1 k h2
          rw [hloc] at hh
          simp only [hloc, recOf] at hh ⊢
          rw [hh, hd1]
      | ok d2 =>
          have hd2 : alGet d2 k = alGet d1 k := by
            have hh := locationStep_frame e d1 k h2
            rwa [hloc] at hh
          simp only [hloc]
          cases htab : tableStep e d2 with
          | error p =>
              obtain ⟨m', p2⟩ := p
              have hp2 : p2 = d2 := by
                cases hq : e.tableQ <;> simp [tableStep, hq] at htab
                exact htab.2.symm
              simp only [htab, recOf]
              rw [hp2, hd2, hd1]
          | ok det =>
              have hsec := secondaryStep_frame e d2 det k h3
              simp only [htab, recOf]
              rw [alGet_alSet_ne _ _ _ _ (Ne.symm h4), hsec, hd2, hd1]

/-- The outer exception handler only adds the "error" key. -/
theorem extract_vs_body (e : PropElem) (k : String) (h : k ≠ "error") :
    alGet (extract_property_details e) k = alGet (recOf (extractBody e)) k := by
  unfold extract_property_details
  cases hb : extractBody e with
  | ok d => simp [recOf]
  | error p => simp [recOf, alGet_alSet, Ne.symm h]

theorem propertyIdStep_frame (purl : Option String) (d : Record) (k : String)
    (h : k ≠ "property_id") : alGet (propertyIdStep purl d) k = alGet d k := by
  cases purl with
  | none => simp [propertyIdStep, alGet_alSet, Ne.symm h]
  | some u =>
      simp only [propertyIdStep]
      split <;> simp [alGet_alSet, Ne.symm h]

/-! ## The values of the banner flags -/

theorem bannerFlags_for_lease (lt : String) (d : Record) :
    alGet (bannerFlags lt d) "for_lease" =
      some (.bool (strContains lt "LEASE" || strContains lt "BOTH")) := by
  simp only [bannerFlags]
  split
  · rename_i hC
    rw [alGet_alSet_ne _ _ _ _ (by decide), alGet_alSet_self]
    cases hb : strContains lt "BOTH" <;> cases hl : strContains lt "LEASE" <;>
      cases hs : strContains lt "SALE" <;> simp_all
  · rename_i hC
    rw [alGet_alSet_ne _ _ _ _ (by decide), alGet_alSet_self]
    cases hb : strContains lt "BOTH" <;> cases hl : strContains lt "LEASE" <;>
      cases hs : strContains lt "SALE" <;> simp_all

theorem bannerFlags_for_sale (lt : String) (d : Record) :
    alGet (bannerFlags lt d) "for_sale" =
      some (.bool (strContains lt "SALE" || strContains lt "BOTH")) := by
  simp only [bannerFlags]
  split
  · rename_i hC
    rw [alGet_alSet_self]
    cases hb : strContains lt "BOTH" <;> cases hl : strContains lt "LEASE" <;>
      cases hs : strContains lt "SALE" <;> simp_all
  · rename_i hC
    rw [alGet_alSet_self]
    cases hb : strContains lt "BOTH" <;> cases hl : strContains lt "LEASE" <;>
      cases hs : strContains lt "SALE" <;> simp_all

theorem bannerFlags_listing_type (lt : String) (d : Record) :
    alGet (bannerFlags lt d) "listing_type" = some (.str lt) := by
  simp only [bannerFlags]
  split
  · rw [alGet_alSet_ne _ _ _ _ (by decide), alGet_alSet_ne _ _ _ _ (by decide),
      alGet_alSet_ne _ _ _ _ (by decide), alGet_alSet_ne _ _ _ _ (by decide),
      alGet_alSet_self]
  · rw [alGet_alSet_ne _ _ _ _ (by decide), alGet_alSet_ne _ _ _ _ (by decide),
      alGet_alSet_self]

/-! ## The banner keys of a fully extracted record -/

/-- When the extraction reaches the banner step with record `d0` and the
banner query answers `r` (found or absent), the extracted record's banner
keys are exactly those computed by `bannerFlags` on the normalized text. -/
theorem extract_banner_keys (e : PropElem) (d0 : Record) (lt : String)
    (hpre : preBanner e = .ok d0)
    (hban : bannerStep e d0 = .ok (bannerFlags lt d0)) :
    alGet (extract_property_details e) "for_lease" =
      some (.bool (strContains lt "LEASE" || strContains lt "BOTH")) ∧
    alGet (extract_property_details e) "for_sale" =
      some (.bool (strContains lt "SALE" || strContains lt "BOTH")) ∧
    alGet (extract_property_details e) "listing_type" = some (.str lt) := by
  have hb : extractBody e = postBanner e (bannerFlags lt d0) := by
    simp [extractBody, hpre, hban]
  refine ⟨?_, ?_, ?_⟩
  · rw [extract_vs_body e _ (by decide), hb,
      postBanner_frame _ _ _ (by decide) (by decide) (by decide) (by decide),
      bannerFlags_for_lease]
  · rw [extract_vs_body e _ (by decide), hb,
      postBanner_frame _ _ _ (by decide) (by decide) (by decide) (by decide),
      bannerFlags_for_sale]
  · rw [extract_vs_body e _ (by decide), hb,
      postBanner_frame _ _ _ (by decide) (by decide) (by decide) (by decide),
      bannerFlags_listing_type]

/-! ## The url/property_id keys of a fully extracted record -/

/-- Everything from the banner step on leaves any key other than the
banner/title/location/secondary/details keys untouched. -/
theorem bodyFromBanner_frame (e : PropElem) (d : Record) (k : String)
    (h1 : k ≠ "listing_type") (h2 : k ≠ "for_lease") (h3 : k ≠ "for_sale")
    (h4 : k ≠ "title") (h5 : k ≠ "location") (h6 : k ≠ "secondary_info")
    (h7 : k ≠ "details") :
    alGet (recOf (match bannerStep e d with
      | .error p => .error p
      | .ok d => postBanner e d)) k = alGet d k := by
  cases hbn : bannerStep e d with
  | error p =>
      obtain ⟨m', p2⟩ := p
      have hp2 : p2 = d := by
        cases hq : e.bannerQ <;> simp [bannerStep, hq] at hbn
        exact hbn.2.symm
      simp only [recOf, hp2]
  | ok d1 =>
      have hd1 : alGet d1 k = alGet d k := by
        have hh := bannerStep_frame e d k h1 h2 h3
        rwa [hbn] at hh
      rw [postBanner_frame e d1 k h4 h5 h6 h7, hd1]

/-- When the url step succeeds, every later step leaves the "url" and
"property_id" keys of the record untouched, so the extracted record shows
exactly what `urlStep`/`propertyIdStep` stored. -/
theorem extract_from_urlStep (e : PropElem) (purl : Option String)
    (d1 : Record) (hurl : urlStep e [] = .ok (purl, d1)) (k : String)
    (h1 : k ≠ "image_url") (h2 : k ≠ "image_alt") (h3 : k ≠ "listing_type")
    (h4 : k ≠ "for_lease") (h5 : k ≠ "for_sale") (h6 : k ≠ "title")
    (h7 : k ≠ "location") (h8 : k ≠ "secondary_info") (h9 : k ≠ "details")
    (h10 : k ≠ "error") :
    alGet (extract_property_details e) k =
      alGet (propertyIdStep purl d1) k := by
  rw [extract_vs_body e _ h10]
  unfold extractBody preBanner
  simp only [hurl]
  cases him : imageLoop e imageSelectors (propertyIdStep purl d1) with
  | error p =>
      have hh := imageLoop_frame e imageSelectors (propertyIdStep purl d1) k h1 h2
      rw [him] at hh
      simp only [him, recOf]
      simpa [recOf] using hh
  | ok d2 =>
      have hd2 : alGet d2 k = alGet (propertyIdStep purl d1) k := by
        have hh := imageLoop_frame e imageSelectors (propertyIdStep purl d1) k h1 h2
        rwa [him] at hh
      simp only [him]
      rw [← hd2]
      exact bodyFromBanner_frame e d2 k h3 h4 h5 h6 h7 h8 h9

/-! ## The guarded heuristics never overwrite their own keys -/

theorem heuristicStep_price (det : Details) (i : String)
    (h : alHas det "price" = true) :
    alGet (heuristicStep det i) "price" = alGet det "price" := by
  simp only [heuristicStep]
  split_ifs with hc1 hc2 hc3 hc4 hc5
  · exact alGet_alSet_ne _ _ _ _ (by decide)
  · simp [h] at hc2
  · exact alGet_alSet_ne _ _ _ _ (by decide)
  · exact alGet_alSet_ne _ _ _ _ (by decide)
  · exact alGet_alSet_ne _ _ _ _ (by decide)
  · rfl

theorem heuristicStep_building_size (det : Details) (i : String)
    (h : alHas det "building_size" = true) :
    alGet (heuristicStep det i) "building_size" = alGet det "building_size" := by
  simp only [heuristicStep]
  split_ifs with hc1 hc2 hc3 hc4 hc5
  · exact alGet_alSet_ne _ _ _ _ (by decide)
  · exact alGet_alSet_ne _ _ _ _ (by decide)
  · exact alGet_alSet_ne _ _ _ _ (by decide)
  · simp [h] at hc4
  · exact alGet_alSet_ne _ _ _ _ (by decide)
  · rfl

theorem heuristicPass_price (det : Details) (infos : List String)
    (h : alHas det "price" = true) :
    alGet (heuristicPass det infos) "price" = alGet det "price" := by
  induction infos generalizing det with
  | nil => rfl
  | cons i rest ih =>
      have hstep := heuristicStep_price det i h
      have hhas : alHas (heuristicStep det i) "price" = true := by
        unfold alHas at *
        rw [hstep]
        exact h
      calc alGet (heuristicPass det (i :: rest)) "price"
          = alGet (heuristicPass (heuristicStep det i) rest) "price" := rfl
        _ = alGet (heuristicStep det i) "price" := ih _ hhas
        _ = alGet det "price" := hstep

theorem heuristicPass_building_size (det : Details) (infos : List String)
    (h : alHas det "building_size" = true) :
    alGet (heuristicPass det infos) "building_size" =
      alGet det "building_size" := by
  induction infos generalizing det with
  | nil => rfl
  | cons i rest ih =>
      have hstep := heuristicStep_building_size det i h
      have hhas : alHas (heuristicStep det i) "building_size" = true := by
        unfold alHas at *
        rw [hstep]
        exact h
      calc alGet (heuristicPass det (i :: rest)) "building_size"
          = alGet (heuristicPass (heuristicStep det i) rest) "building_size" := rfl
        _ = alGet (heuristicStep det i) "building_size" := ih _ hhas
        _ = alGet det "building_size" := hstep

/-! ## Loop bounds -/

theorem scrapeLoop_le (env : BrowserEnv) :
    ∀ fuel k, (scrapeLoop env fuel k).2 ≤ fuel := by
  intro fuel
  induction fuel with
  | zero => intro k; simp [scrapeLoop]
  | succ f ih =>
      intro k
      simp only [scrapeLoop]
      split
      · simpa using Nat.succ_le_succ (ih (k + 1))
      · simp

theorem scrapeLoop_all_true (env : BrowserEnv)
    (h : ∀ j, navigate_to_next_page (env.pageView j) (env.pageView (j + 1)) = true) :
    ∀ fuel k, (scrapeLoop env fuel k).2 = fuel := by
  intro fuel
  induction fuel with
  | zero => intro k; simp [scrapeLoop]
  | succ f ih =>
      intro k
      simp only [scrapeLoop, h k]
      simp [ih (k + 1)]

theorem completeLoop_le (env : CompleteEnv) :
    ∀ fuel cur, completeLoop env fuel cur ≤ 11 - cur := by
  intro fuel
  induction fuel with
  | zero => intro cur; simp [completeLoop]
  | succ f ih =>
      intro cur
      simp only [completeLoop]
      split
      · rename_i hcur
        split
        · split
          · have := ih (cur + 1)
            omega
          · omega
        · omega
      · omega

/-! ## Decimal page labels round-trip through the pagination parser -/

theorem digitChar_spec (m : Nat) (hm : m < 10) :
    (digitChar m).isDigit = true ∧ (digitChar m).isWhitespace = false ∧
    (digitChar m).toNat = 48 + m ∧ digitChar m ≠ '-' ∧ digitChar m ≠ '+' := by
  interval_cases m <;> exact (by decide)

theorem natToCharsRev_zero : natToCharsRev 0 = [] := by
  rw [natToCharsRev]
  simp

theorem natToCharsRev_pos (n : Nat) (h : n ≠ 0) :
    natToCharsRev n = digitChar (n % 10) :: natToCharsRev (n / 10) := by
  rw [natToCharsRev]
  simp [h]

theorem natToCharsRev_mem (n : Nat) :
    ∀ c ∈ natToCharsRev n, ∃ m, m < 10 ∧ c = digitChar m := by
  induction n using Nat.strong_induction_on with
  | _ n ih =>
      by_cases h : n = 0
      · subst h
        rw [natToCharsRev_zero]
        intro c hc
        simp at hc
      · rw [natToCharsRev_pos n h]
        intro c hc
        rcases List.mem_cons.mp hc with hc | hc
        · exact ⟨n % 10, Nat.mod_lt _ (by norm_num), hc⟩
        · exact ih (n / 10)
            (Nat.div_lt_self (Nat.pos_of_ne_zero h) (by norm_num)) c hc

theorem natOfCharsAux_append (l1 l2 : List Char) (acc : Nat) :
    natOfCharsAux (l1 ++ l2) acc =
      (natOfCharsAux l1 acc).bind (fun a => natOfCharsAux l2 a) := by
  induction l1 generalizing acc with
  | nil => rfl
  | cons c t ih =>
      simp only [List.cons_append, natOfCharsAux]
      by_cases hc : c.isDigit
      · simp [hc, ih]
      · simp [hc]

theorem natOfCharsAux_rev (n : Nat) : ∀ acc : Nat,
    natOfCharsAux ((natToCharsRev n).reverse) acc =
      some (acc * 10 ^ (natToCharsRev n).length + n) := by
  induction n using Nat.strong_induction_on with
  | _ n ih =>
      intro acc
      by_cases h : n = 0
      · subst h
        rw [natToCharsRev_zero]
        simp [natOfCharsAux]
      · rw [natToCharsRev_pos n h]
        have hdiv : n / 10 < n :=
          Nat.div_lt_self (Nat.pos_of_ne_zero h) (by norm_num)
        have hm : n % 10 < 10 := Nat.mod_lt _ (by norm_num)
        obtain ⟨hdig, hws, htn, hne1, hne2⟩ := digitChar_spec (n % 10) hm
        simp only [List.reverse_cons]
        rw [natOfCharsAux_append, ih (n / 10) hdiv acc]
        simp only [Option.some_bind, natOfCharsAux, hdig, if_true, htn]
        congr 1
        have h48 : 48 + n % 10 - 48 = n % 10 := by omega
        rw [h48, List.length_cons, pow_succ]
        calc 10 * (acc * 10 ^ (natToCharsRev (n / 10)).length + n / 10) + n % 10
            = acc * (10 ^ (natToCharsRev (n / 10)).length * 10) +
                (10 * (n / 10) + n % 10) := by ring
          _ = acc * (10 ^ (natToCharsRev (n / 10)).length * 10) + n := by
                rw [Nat.div_add_mod]

theorem dropWhile_all_false (p : Char → Bool) :
    ∀ l : List Char, (∀ c ∈ l, p c = false) → l.dropWhile p = l := by
  intro l h
  induction l with
  | nil => rfl
  | cons c t ih =>
      simp only [List.dropWhile, h c (by simp)]

theorem trimChars_of_no_whitespace (l : List Char)
    (h : ∀ c ∈ l, c.isWhitespace = false) : trimChars l = l := by
  unfold trimChars
  rw [dropWhile_all_false _ l h,
    dropWhile_all_false _ l.reverse (fun c hc => h c (List.mem_reverse.mp hc)),
    List.reverse_reverse]

theorem parse_natLabel (n : Nat) (hn : 0 < n) :
    parseIntStr (trimStr (natLabel n)) = some (n : Int) := by
  have hmem : ∀ c ∈ (natToCharsRev n).reverse, ∃ m, m < 10 ∧ c = digitChar m :=
    fun c hc => natToCharsRev_mem n c (List.mem_reverse.mp hc)
  have hws : ∀ c ∈ (natToCharsRev n).reverse, c.isWhitespace = false := by
    intro c hc
    obtain ⟨m, hm, rfl⟩ := hmem c hc
    exact (digitChar_spec m hm).2.1
  have htrim : trimStr (natLabel n) = natLabel n := by
    show (⟨trimChars ((natToCharsRev n).reverse)⟩ : String) = _
    rw [trimChars_of_no_whitespace _ hws]
    rfl
  rw [htrim]
  have hnonnil : natToCharsRev n ≠ [] := by
    rw [natToCharsRev_pos n (Nat.pos_iff_ne_zero.mp hn)]
    simp
  cases hrev : (natToCharsRev n).reverse with
  | nil => exact absurd (List.reverse_eq_nil_iff.mp hrev) hnonnil
  | cons c t =>
      obtain ⟨m, hm, rfl⟩ := hmem c (by rw [hrev]; exact List.mem_cons_self c t)
      obtain ⟨hdig, hws', htn, hne1, hne2⟩ := digitChar_spec m hm
      show parseIntStr ⟨(natToCharsRev n).reverse⟩ = some (n : Int)
      have hparse := natOfCharsAux_rev n 0
      rw [hrev] at hparse
      simp only [parseIntStr, hrev, hne1, hne2, if_false, hparse]
      simp

theorem get_current_page_number_numbered (k : Nat) :
    get_current_page_number (numberedView k) = ((k + 1 : Nat) : Int) := by
  simp [get_current_page_number, numberedView, parse_natLabel (k + 1) (by omega)]

theorem navigate_numbered (k : Nat) :
    navigate_to_next_page (numberedView k) (numberedView (k + 1)) = true := by
  unfold navigate_to_next_page
  rw [get_current_page_number_numbered k]
  have hfind : findNextButton (numberedView k).paginateBtnTexts
      (((k + 1 : Nat) : Int) + 1) = some (natLabel (k + 2)) := by
    unfold findNextButton numberedView
    simp only [List.find?]
    rw [parse_natLabel (k + 2) (by omega)]
    have : ((k + 2 : Nat) : Int) = ((k + 1 : Nat) : Int) + 1 := by push_cast; ring
    simp [this]
  simp only [hfind, get_current_page_number_numbered (k + 1), decide_eq_true_eq]
  push_cast
  omega

/-! ## complete_scraper.py url acceptance -/

theorem completeAltLinkLoop_spec (e : PropElem) :
    ∀ sels : List String, completeAltLinkLoop e sels fallbackItemUrl = fallbackItemUrl ∨
      strStartsWith (completeAltLinkLoop e sels fallbackItemUrl) "http" = true := by
  intro sels
  induction sels with
  | nil => exact Or.inl rfl
  | cons s rest ih =>
      simp only [completeAltLinkLoop]
      cases hq : e.linkQ s with
      | found a =>
          cases a with
          | none => exact ih
          | some u =>
              by_cases hu : strStartsWith u "http"
              · simp [hu]
              · simp only [hu, if_false]
                exact ih
      | absent => exact ih
      | err m => exact ih

theorem completeSelfLink_spec (e : PropElem) :
    completeSelfLink e = fallbackItemUrl ∨
      strStartsWith (completeSelfLink e) "http" = true := by
  unfold completeSelfLink
  by_cases ht : e.tagName = "a"
  · simp only [ht, if_true]
    cases e.selfHref with
    | none => exact Or.inl rfl
    | some b =>
        by_cases hb : strStartsWith b "http"
        · simp [hb]
        · simp [hb]
  · simp [ht]

/-! ## scraper.py ignores the host page's iframes entirely -/

theorem scrapeLoop_frames_irrelevant (env : BrowserEnv) (fs : List Frame) :
    ∀ fuel k, scrapeLoop { env with frames := fs } fuel k = scrapeLoop env fuel k := by
  intro fuel
  induction fuel with
  | zero => intro k; rfl
  | succ f ih =>
      intro k
      simp only [scrapeLoop, ih (k + 1)]

/-! ## Boolean helpers for the finally-block accounting -/

theorem if_then_false (b : Bool) : (if b then false else b) = false := by
  cases b <;> rfl

theorem close_driver_closes (b : Bool) : close_driver b = false := by
  cases b <;> rfl

/-! ## Claim C1 -/

/-- C1 (counterexample): a listing node with an absent banner is extracted
by scraper.py's `extract_property_details` with `for_lease = false` — the
claimed conservative default `forLease = true` does not hold there
(`listing_type` stays "Unknown", which contains neither keyword). -/
theorem claim1_counterexample :
    elemNoBanner.bannerQ = QRes.absent ∧
    alGet (extract_property_details elemNoBanner) "for_lease" =
      some (Value.bool false) ∧
    alGet (extract_property_details elemNoBanner) "for_sale" =
      some (Value.bool false) :=
  ⟨rfl, rfl, rfl⟩

/-- C1 (amended): for every listing node, the uppercased banner text
determines the flags — "LEASE" in the text forces `for_lease = true` and
"SALE" forces `for_sale = true` (both when both occur) — in both
scraper.py's extractor and comprehensive_scraper.py's flag computation;
for an empty or absent banner, comprehensive_scraper.py applies the
conservative default `for_lease = true, for_sale = false`, while
scraper.py's extractor yields `for_lease = false, for_sale = false`. -/
theorem claim1_banner_type_flags :
    (∀ (e : PropElem) (b : String) (d0 : Record), preBanner e = .ok d0 →
        e.bannerQ = .found b →
        (strContains (upperStr (trimStr b)) "LEASE" = true →
          alGet (extract_property_details e) "for_lease" = some (.bool true)) ∧
        (strContains (upperStr (trimStr b)) "SALE" = true →
          alGet (extract_property_details e) "for_sale" = some (.bool true))) ∧
    (∀ (e : PropElem) (d0 : Record), preBanner e = .ok d0 →
        e.bannerQ = .absent →
        alGet (extract_property_details e) "for_lease" = some (.bool false) ∧
        alGet (extract_property_details e) "for_sale" = some (.bool false)) ∧
    (∀ b : String,
        (strContains (upperStr (trimStr b)) "LEASE" = true →
          (comprehensive_type_flags (.found b)).1 = true) ∧
        (strContains (upperStr (trimStr b)) "SALE" = true →
          (comprehensive_type_flags (.found b)).2.1 = true)) ∧
    comprehensive_type_flags .absent = (true, false, "") := by
  refine ⟨?_, ?_, ?_, ?_⟩
  · intro e b d0 hpre hban
    have hstep : bannerStep e d0 = .ok (bannerFlags (upperStr (trimStr b)) d0) := by
      simp [bannerStep, hban]
    obtain ⟨hl, hs, _⟩ := extract_banner_keys e d0 (upperStr (trimStr b)) hpre hstep
    constructor
    · intro hc
      rw [hl, hc]
      simp
    · intro hc
      rw [hs, hc]
      simp
  · intro e d0 hpre hban
    have hstep : bannerStep e d0 = .ok (bannerFlags "Unknown" d0) := by
      simp [bannerStep, hban]
    obtain ⟨hl, hs, _⟩ := extract_banner_keys e d0 "Unknown" hpre hstep
    refine ⟨?_, ?_⟩
    · rw [hl]
      decide
    · rw [hs]
      decide
  · intro b
    constructor
    · intro hc
      simp [comprehensive_type_flags, hc]
    · intro hc
      simp only [comprehensive_type_flags, hc]
      split <;> simp_all
  · rfl

/-- C1 (witness): a "FOR LEASE" banner yields `for_lease = true`. -/
theorem claim1_witness :
    alGet (extract_property_details elemLease) "for_lease" =
      some (Value.bool true) :=
  (claim1_banner_type_flags.1 elemLease "FOR LEASE" _ rfl rfl).1 (by decide)

/-! ## Claim C2 -/

/-- C2 (counterexample): the detail table sets
`details["available_space"] = "5,000 SF"`, yet the later heuristic pass on
a secondary-info fragment containing "SF" overwrites it (its guard checks
the key "available", not "available_space"). -/
theorem claim2_counterexample :
    tableStep elemTableSF [] = .ok [("available_space", "5,000 SF")] ∧
    alGet (extract_property_details elemTableSF) "details" =
      some (.strDict [("available_space", "10,000 SF")]) :=
  ⟨rfl, rfl⟩

/-- C2 (amended): the heuristic pass never overwrites an already-present
"price" or "building_size" key — the two heuristics whose guard key equals
the key they set; the "SF"/"spaces" heuristics guard on the different keys
"available"/"#_of_spaces" and can overwrite "available_space" and
"number_of_spaces" set by the table pass or an earlier fragment, and the
property-type heuristic is unguarded. -/
theorem claim2_guarded_heuristics (det : Details) (infos : List String)
    (k : String) (hk : k = "price" ∨ k = "building_size")
    (h : alHas det k = true) :
    alGet (heuristicPass det infos) k = alGet det k := by
  rcases hk with hk | hk
  · subst hk
    exact heuristicPass_price det infos h
  · subst hk
    exact heuristicPass_building_size det infos h

/-- C2 (witness): a present "price" key survives a "call agent" fragment. -/
theorem claim2_witness :
    alGet (heuristicPass [("price", "Call Agent")] ["call agent today"]) "price" =
      some "Call Agent" :=
  (claim2_guarded_heuristics [("price", "Call Agent")] ["call agent today"]
    "price" (Or.inl rfl) (by decide)).trans (by decide)

/-! ## Claim C3 -/

/-- C3 (counterexample): with `totalsEstimate.totalPages` misreported as
9999, `max_pages = None`, and a pagination control that always advances,
scraper.py's loop visits 9999 pages — there is no fixed safety ceiling. -/
theorem claim3_counterexample :
    env9999.totalPagesInfo = 9999 ∧ (scrape_all_pages env9999 none).2 = 9999 := by
  refine ⟨rfl, ?_⟩
  have h := scrapeLoop_all_true env9999 (fun j => navigate_numbered j) 9999 0
  simpa [scrape_all_pages, maxPagesToScrape] using h

/-- C3 (amended): scraper.py's page loop is bounded only by
`max_pages or totalsEstimate.totalPages` (no additional safety ceiling);
the fixed data-independent ceiling exists only in complete_scraper.py,
whose loop visits at most 10 pages. -/
theorem claim3_page_ceiling :
    (∀ (env : BrowserEnv) (mp : Option Nat),
        (scrape_all_pages env mp).2 ≤ maxPagesToScrape mp env.totalPagesInfo) ∧
    (∀ env : CompleteEnv, completePagesVisited env ≤ 10) := by
  constructor
  · intro env mp
    exact scrapeLoop_le env (maxPagesToScrape mp env.totalPagesInfo) 0
  · intro env
    have h := completeLoop_le env 11 1
    simpa [completePagesVisited] using h

/-! ## Claim C4 -/

/-- C4 (counterexample): complete_scraper.py's pagination never re-reads
the active-page indicator after a click and a stall is not terminal: on a
page whose rendered view never changes (the same stuck button list every
iteration), its loop still performs 10 page visits — clicking a new label
each time from its locally incremented counter — instead of reporting
navigation failure after the first unverified click. -/
theorem claim4_counterexample :
    (∀ k, envStuckPager.pageBtns k = envStuckPager.pageBtns 0) ∧
    completePagesVisited envStuckPager = 10 :=
  ⟨fun _ => rfl, rfl⟩

/-- C4 (amended): scraper.py's advance (`navigate_to_next_page`) behaves
as claimed — it succeeds exactly when a pagination button labelled
`currentPage() + 1` exists and the page number re-read from the
active-page indicator after the click is strictly greater than the old
one, reporting terminal navigation failure otherwise, and the terminal
non-error "no further pages" outcome when no such button exists;
complete_scraper.py's inline pagination, by contrast, performs no such
verification: after finding a button and clicking successfully its loop
unconditionally increments its local page counter and continues. -/
theorem claim4_advance_verification (pre post : PageView) :
    (navigate_to_next_page pre post = true ↔
      ((∃ b ∈ pre.paginateBtnTexts,
          parseIntStr (trimStr b) = some (get_current_page_number pre + 1)) ∧
        get_current_page_number pre < get_current_page_number post)) ∧
    ((∀ b ∈ pre.paginateBtnTexts,
        parseIntStr (trimStr b) ≠ some (get_current_page_number pre + 1)) →
      navigate_to_next_page pre post = false) ∧
    (∀ (env : CompleteEnv) (fuel cur : Nat), cur ≤ 10 →
        (get_next_page_button (env.pageBtns cur) cur).isSome = true →
        env.clickOk cur = true →
        completeLoop env (fuel + 1) cur = 1 + completeLoop env fuel (cur + 1)) := by
  have hcomplete : ∀ (env : CompleteEnv) (fuel cur : Nat), cur ≤ 10 →
      (get_next_page_button (env.pageBtns cur) cur).isSome = true →
      env.clickOk cur = true →
      completeLoop env (fuel + 1) cur = 1 + completeLoop env fuel (cur + 1) := by
    intro env fuel cur hcur hbtn hclick
    cases hb : get_next_page_button (env.pageBtns cur) cur with
    | none => rw [hb] at hbtn; simp at hbtn
    | some b => simp [completeLoop, hcur, hb, hclick]
  cases hf : findNextButton pre.paginateBtnTexts (get_current_page_number pre + 1) with
  | some b =>
      have hmem : b ∈ pre.paginateBtnTexts := List.mem_of_find?_eq_some hf
      have hparse :
          parseIntStr (trimStr b) = some (get_current_page_number pre + 1) := by
        have hpred := List.find?_some hf
        simpa using hpred
      refine ⟨?_, ?_, hcomplete⟩
      · unfold navigate_to_next_page
        simp only [hf]
        constructor
        · intro h
          exact ⟨⟨b, hmem, hparse⟩, by simpa using h⟩
        · intro h
          simpa using h.2
      · intro hall
        exact absurd hparse (hall b hmem)
  | none =>
      have hparse_ne : ∀ b ∈ pre.paginateBtnTexts,
          parseIntStr (trimStr b) ≠ some (get_current_page_number pre + 1) := by
        intro b hb heq
        have hnone := List.find?_eq_none.mp hf b hb
        simp [heq] at hnone
      have hnav : navigate_to_next_page pre post = false := by
        unfold navigate_to_next_page
        simp only [hf]
      refine ⟨?_, ?_, hcomplete⟩
      · rw [hnav]
        constructor
        · intro h
          cases h
        · rintro ⟨⟨b, hb, hp⟩, _⟩
          exact absurd hp (hparse_ne b hb)
      · intro _
        exact hnav

/-- C4 (witness): with no pagination buttons the outcome is the terminal
"no further pages" (false). -/
theorem claim4_witness : navigate_to_next_page trivialView trivialView = false :=
  (claim4_advance_verification trivialView trivialView).2.1 (by decide)

/-! ## Claim C5 -/

/-- C5 (counterexample): in complete_scraper.py a listing node whose
processing raises is turned into `None` at the extractor boundary and the
record is dropped from the page output (sibling processing continues) —
it is not kept with an extraction-error field as claimed. -/
theorem claim5_counterexample :
    completePageItems
        [Except.error "stale element reference", Except.ok sampleOkRecord] =
      [sampleOkRecord] :=
  rfl

/-- C5 (amended): in scraper.py a node-level exception is caught at the
extractor boundary and the record is kept with every field populated
before the failure plus an "error" field, and every resolved listing node
yields exactly one record (sibling processing continues); in
complete_scraper.py the boundary instead returns nothing for a raising
node and the record is dropped, though siblings still continue. -/
theorem claim5_node_failure :
    (∀ (e : PropElem) (m : String) (d : Record),
        extractBody e = .error (m, d) →
        alGet (extract_property_details e) "error" = some (.str m) ∧
        ∀ k, k ≠ "error" → alGet (extract_property_details e) k = alGet d k) ∧
    (∀ (view : PageView) (dom : String → List PropElem) (clock : Nat → String),
        (get_current_page_properties view dom clock).length =
          (resolveSelectors dom propertySelectors).1.length) ∧
    (∀ m : String, extract_property_data (Except.error m) = none) := by
  refine ⟨?_, ?_, ?_⟩
  · intro e m d h
    unfold extract_property_details
    rw [h]
    exact ⟨alGet_alSet_self _ _ _,
      fun k hk => alGet_alSet_ne _ _ _ _ (Ne.symm hk)⟩
  · intro view dom clock
    simp [get_current_page_properties]
  · intro m
    rfl

/-- C5 (witness): a node whose first query raises yields a kept record
carrying the error description. -/
theorem claim5_witness :
    alGet (extract_property_details elemErr) "error" =
      some (Value.str "stale element reference") :=
  (claim5_node_failure.1 elemErr "stale element reference" [] rfl).1

/-! ## Claim C6 -/

/-- C6: selector strategies are tried strictly in order; the first strategy
with a non-empty node list wins and is returned together with its
identity, and only the strategies up to and including it are ever
evaluated; when every strategy yields no nodes the result is an empty
sequence with no matched strategy (after evaluating them all). -/
theorem claim6_resolver {α : Type} (dom : String → List α) :
    (∀ (pfx : List String) (s : String) (sfx : List String),
        (∀ t ∈ pfx, dom t = []) → dom s ≠ [] →
        resolveSelectors dom (pfx ++ s :: sfx) = (dom s, some s, pfx ++ [s])) ∧
    (∀ strategies : List String, (∀ t ∈ strategies, dom t = []) →
        resolveSelectors dom strategies = ([], none, strategies)) := by
  constructor
  · intro pfx s sfx hpfx hs
    induction pfx with
    | nil =>
        simp only [List.nil_append, resolveSelectors]
        rw [if_neg (by simpa [List.isEmpty_iff] using hs)]
    | cons t pfx' ih =>
        have ht : dom t = [] := hpfx t (by simp)
        have hrest := ih (fun u hu => hpfx u (by simp [hu]))
        simp only [List.cons_append, resolveSelectors, ht, List.isEmpty_nil,
          if_true, List.append_eq, hrest]
  · intro strategies hall
    induction strategies with
    | nil => rfl
    | cons t rest ih =>
        have ht : dom t = [] := hall t (by simp)
        have hrest := ih (fun u hu => hall u (by simp [hu]))
        simp only [resolveSelectors, ht, List.isEmpty_nil, if_true, hrest]

/-- C6 (witness): with strategies A, B, C where A matches nothing and B
matches two nodes, resolution returns B's nodes and identity and never
evaluates C. -/
theorem claim6_witness :
    resolveSelectors domB ["A", "B", "C"] = ([7, 8], some "B", ["A", "B"]) :=
  (claim6_resolver domB).1 ["A"] "B" ["C"] (by decide) (by decide)

/-! ## Claim C7 -/

/-- C7 (counterexample): scraper.py accepts the first anchor's href as the
url even when it is relative (not scheme-qualified), contradicting the
"only absolute, scheme-qualified URLs are accepted" part of the claim. -/
theorem claim7_counterexample :
    alGet (extract_property_details elemRelativeAnchor) "url" =
      some (Value.str "/home-5/properties?propertyId=1417234-sale") ∧
    isSchemeQualified "/home-5/properties?propertyId=1417234-sale" = false :=
  ⟨rfl, rfl⟩

/-- C7 (amended): the url comes from the first anchor descendant (or the
node itself when it is anchor-like), and `property_id` is the text
following the first `propertyId=` marker (up to any next marker) when the
marker occurs, null otherwise; but only complete_scraper.py filters for
absolute (`http`-prefixed) URLs — scraper.py stores the anchor's href
as-is, scheme-qualified or not. -/
theorem claim7_url_propertyId :
    (∀ (e : PropElem) (h : Option String), e.anchorQ = .found h →
        alGet (extract_property_details e) "url" = some (ovalue h)) ∧
    (∀ e : PropElem, e.anchorQ = .absent → e.tagName = "a" →
        alGet (extract_property_details e) "url" = some (ovalue e.selfHref)) ∧
    (∀ (e : PropElem) (u : String), e.anchorQ = .found (some u) →
        strContains u "propertyId=" = true →
        alGet (extract_property_details e) "property_id" =
          some (.str (splitSecond "propertyId=" u))) ∧
    (∀ (e : PropElem) (u : String), e.anchorQ = .found (some u) →
        strContains u "propertyId=" = false →
        alGet (extract_property_details e) "property_id" = some Value.null) ∧
    (∀ e : PropElem, complete_item_url e = fallbackItemUrl ∨
        strStartsWith (complete_item_url e) "http" = true) := by
  refine ⟨?_, ?_, ?_, ?_, ?_⟩
  · intro e h hq
    have hurl : urlStep e [] = .ok (h, [("url", ovalue h)]) := by
      simp [urlStep, hq, alSet]
    rw [extract_from_urlStep e h _ hurl "url" (by decide) (by decide) (by decide)
      (by decide) (by decide) (by decide) (by decide) (by decide) (by decide)
      (by decide)]
    rw [propertyIdStep_frame _ _ _ (by decide)]
    simp [alGet]
  · intro e hq htag
    have hurl : urlStep e [] = .ok (e.selfHref, [("url", ovalue e.selfHref)]) := by
      simp [urlStep, hq, htag, alSet]
    rw [extract_from_urlStep e e.selfHref _ hurl "url" (by decide) (by decide)
      (by decide) (by decide) (by decide) (by decide) (by decide) (by decide)
      (by decide) (by decide)]
    rw [propertyIdStep_frame _ _ _ (by decide)]
    simp [alGet]
  · intro e u hq hmark
    have hurl : urlStep e [] = .ok (some u, [("url", ovalue (some u))]) := by
      simp [urlStep, hq, alSet]
    rw [extract_from_urlStep e (some u) _ hurl "property_id" (by decide)
      (by decide) (by decide) (by decide) (by decide) (by decide) (by decide)
      (by decide) (by decide) (by decide)]
    simp [propertyIdStep, hmark, alGet_alSet_self]
  · intro e u hq hmark
    have hurl : urlStep e [] = .ok (some u, [("url", ovalue (some u))]) := by
      simp [urlStep, hq, alSet]
    rw [extract_from_urlStep e (some u) _ hurl "property_id" (by decide)
      (by decide) (by decide) (by decide) (by decide) (by decide) (by decide)
      (by decide) (by decide) (by decide)]
    simp [propertyIdStep, hmark, alGet_alSet_self]
  · intro e
    unfold complete_item_url
    cases hq : e.anchorQ with
    | found a =>
        cases a with
        | some u =>
            by_cases hu : strStartsWith u "http"
            · simp [hu]
            · simp only [hu, if_false]
              exact completeSelfLink_spec e
        | none => exact completeSelfLink_spec e
    | absent => exact completeAltLinkLoop_spec e altLinkSelectors
    | err m => exact completeAltLinkLoop_spec e altLinkSelectors

/-- C7 (witness): the relative-anchor node's `property_id` is the text
after the marker. -/
theorem claim7_witness :
    alGet (extract_property_details elemRelativeAnchor) "property_id" =
      some (Value.str (splitSecond "propertyId="
        "/home-5/properties?propertyId=1417234-sale")) :=
  claim7_url_propertyId.2.2.1 elemRelativeAnchor
    "/home-5/properties?propertyId=1417234-sale" rfl (by decide)

/-! ## Claim C8 -/

/-- C8 (counterexample): scraper.py's run performs no frame entry at all —
on a site with zero iframes (so no buildout inventory frame exists) it
still extracts and returns a record instead of failing. -/
theorem claim8_counterexample :
    findBuildoutIframe envNoFrames.frames = none ∧
    ((scrape_all_pages envNoFrames none).1).length = 1 :=
  ⟨rfl, rfl⟩

/-- C8 (amended): complete_scraper.py's run enumerates the iframes,
selects one whose src contains the buildout host and the "inventory"
marker, and fails the whole run (exit code 1, session closed) when none
exists — its sole hard precondition; but the precondition is not
universal across runs: scraper.py's `scrape_all_pages` never consults the
iframes (its result is unchanged by any change to the page's frames), and
simple_scraper.py merely logs a missing frame and still completes with
exit code 0. -/
theorem claim8_frame_precondition :
    (∀ env : CompleteEnv, env.initOk = true →
        findBuildoutIframe env.frames = none → completeMainRun env = (1, false)) ∧
    (∀ (fs : List Frame) (f : Frame), findBuildoutIframe fs = some f →
        ∃ s, f.src = some s ∧ strContains s "buildout.com" = true ∧
          strContains s "inventory" = true) ∧
    (∀ (env : BrowserEnv) (fs : List Frame) (mp : Option Nat),
        scrape_all_pages { env with frames := fs } mp = scrape_all_pages env mp) ∧
    (∀ env : CompleteEnv, env.initOk = true → env.bodyErr = none →
        findBuildoutIframe env.frames = none → simpleMainRun env = (0, false)) := by
  refine ⟨?_, ?_, ?_, ?_⟩
  · intro env hinit hnone
    simp [completeMainRun, completeBody, hinit, hnone]
  · intro fs f hf
    have hp := List.find?_some hf
    cases hsrc : f.src with
    | none => rw [hsrc] at hp; simp at hp
    | some s =>
        rw [hsrc] at hp
        simp at hp
        exact ⟨s, rfl, hp.1, hp.2⟩
  · intro env fs mp
    unfold scrape_all_pages
    rw [scrapeLoop_frames_irrelevant env fs]
  · intro env hinit hbody _
    simp [simpleMainRun, hinit, hbody]

/-- C8 (witness): the frame-less complete_scraper.py run fails with exit
code 1 and a released session. -/
theorem claim8_witness : completeMainRun envCompleteNoFrame = (1, false) :=
  claim8_frame_precondition.1 envCompleteNoFrame rfl rfl

/-! ## Claim C9 -/

/-- C9: on every exit path (normal completion, the frame-not-found
precondition failure, a failed driver init, or a session-level exception)
each of the three entry points leaves no browser session open: the
finally-block releases the driver whenever one was opened. -/
theorem claim9_session_release (envS : ScraperRunEnv) (envC : CompleteEnv) :
    (scraperSessionRun envS).2 = false ∧ (completeMainRun envC).2 = false ∧
    (simpleMainRun envC).2 = false := by
  refine ⟨?_, ?_, ?_⟩
  · unfold scraperSessionRun
    exact close_driver_closes _
  · unfold completeMainRun
    exact if_then_false _
  · unfold simpleMainRun
    exact if_then_false _

/-! ## Claim C10 -/

/-- C10: every record appended by the per-page extraction carries a
`page_number` equal to the integer read from the active-page indicator and
a `scraped_at` timestamp taken at its own append step — including records
whose extraction raised and that carry the error field — and the page
number defaults to 1 when the indicator is absent. -/
theorem claim10_provenance_stamps (view : PageView)
    (dom : String → List PropElem) (clock : Nat → String) (i : Nat)
    (h : i < (get_current_page_properties view dom clock).length) :
    alGet ((get_current_page_properties view dom clock).get ⟨i, h⟩)
        "page_number" = some (.int (get_current_page_number view)) ∧
    alGet ((get_current_page_properties view dom clock).get ⟨i, h⟩)
        "scraped_at" = some (.str (clock i)) ∧
    (view.activeBtnText = none → get_current_page_number view = 1) := by
  have hlen : i < ((resolveSelectors dom propertySelectors).1.enum).length := by
    simpa [get_current_page_properties] using h
  have hget : (get_current_page_properties view dom clock).get ⟨i, h⟩ =
      (let p := ((resolveSelectors dom propertySelectors).1.enum).get ⟨i, hlen⟩
       alSet (alSet (extract_property_details p.2) "page_number"
         (.int (get_current_page_number view))) "scraped_at" (.str (clock p.1))) := by
    simp only [get_current_page_properties, List.get_eq_getElem, List.getElem_map]
  have hfst : (((resolveSelectors dom propertySelectors).1.enum).get ⟨i, hlen⟩).1 = i := by
    simp [List.get_eq_getElem, List.getElem_enum]
  refine ⟨?_, ?_, ?_⟩
  · rw [hget]
    rw [alGet_alSet_ne _ _ _ _
      (show ("scraped_at" : String) ≠ "page_number" by decide)]
    exact alGet_alSet_self _ _ _
  · rw [hget]
    simp only [alGet_alSet_self, hfst]
  · intro hnone
    simp [get_current_page_number, hnone]

/-- C10 (witness): the single record of a one-element page carries
`page_number = 1` (read from the active button) and the clock stamp. -/
theorem claim10_witness :
    alGet ((get_current_page_properties trivialView (fun _ => [elemNoBanner])
        (fun _ => "2026-10-12T00:00:00")).get ⟨0, by decide⟩) "page_number" =
      some (Value.int 1) :=
  ((claim10_provenance_stamps trivialView (fun _ => [elemNoBanner])
    (fun _ => "2026-10-12T00:00:00") 0 (by decide)).1).trans (by decide)

end KingsScraper
